import Mathlib

/-!
Shallow embedding of `src/betfair.py` (class `Betfair`): the session lifecycle
manager of a Betfair JSON-RPC client.  HTTP responses are modelled as records
handed to the operation; each operation returns the updated manager state
together with the exception it raised, if any (a raised exception leaves the
state exactly as it was at the raise site, as in the Python source, where every
`raise` happens before any assignment to `self`).  Spawning the daemon
keep-alive thread (`threading.Thread(...).start()` in `login`) is modelled by a
counter of started — and never stopped, the class has no stop mechanism —
keep-alive threads.
-/

/-- Model of `BetfairException(tag, reason)` from betfair.py line 20: the class
is raised with two positional arguments throughout the source. -/
structure BetfairException where
  tag : String
  reason : String
deriving DecidableEq

/-- State of a `Betfair` instance: the fields assigned in `__init__`
(betfair.py lines 29-37).  `keep_alive_threads_started` models the runtime
effect of `login` starting a new daemon thread (lines 70-72): the number of
keep-alive threads started so far; `__init__` sets `self.__alive_thread = None`
and has started none. -/
structure Betfair where
  app_key : String
  login_status : String
  session_token : String
  alive_refresh_sec : Nat
  keep_alive_threads_started : Nat
deriving DecidableEq

/-- Constructor `Betfair.__init__(app_key, alive_refresh_sec)` (betfair.py
lines 29-37); the source defaults `alive_refresh_sec` to 7200. -/
def Betfair.init (app_key : String) (alive_refresh_sec : Nat) : Betfair :=
  { app_key := app_key
    login_status := ""
    session_token := ""
    alive_refresh_sec := alive_refresh_sec
    keep_alive_threads_started := 0 }

/-- Parsed JSON body and HTTP status of a response of the identity endpoint,
as read by `login` (betfair.py lines 56-62): `resp.status_code`,
`resp_json['loginStatus']`, `resp_json['sessionToken']`. -/
structure LoginResponse where
  status_code : Nat
  loginStatus : String
  sessionToken : String
deriving DecidableEq

/-- Response-handling part of `Betfair.login` (betfair.py lines 56-72).  On
status 200 with `loginStatus == 'INVALID_USERNAME_OR_PASSWORD'` it raises
`BetfairException("login:loginStatus", "INVALID_USERNAME_OR_PASSWORD")` before
touching `self`; on any other 200 body it assigns `self.login_status` and
`self.session_token` from the body and then starts a new keep-alive daemon
thread (lines 70-72); on a non-200 status it raises
`BetfairException("login", "Unknown error")` before touching `self`. -/
def Betfair.login (b : Betfair) (resp : LoginResponse) :
    Betfair × Option BetfairException :=
  if resp.status_code = 200 then
    if resp.loginStatus = "INVALID_USERNAME_OR_PASSWORD" then
      (b, some ⟨"login:loginStatus", "INVALID_USERNAME_OR_PASSWORD"⟩)
    else
      ({ b with
          login_status := resp.loginStatus
          session_token := resp.sessionToken
          keep_alive_threads_started := b.keep_alive_threads_started + 1 },
        none)
  else
    (b, some ⟨"login", "Unknown error"⟩)

/-- Parsed JSON body and HTTP status of a response of the keep-alive endpoint,
as read by `keep_alive` (betfair.py lines 89-94): `resp.status_code`,
`resp_json['status']`, `resp_json['error']`. -/
structure KeepAliveResponse where
  status_code : Nat
  status : String
  error : String
deriving DecidableEq

/-- Response-handling part of `Betfair.keep_alive` (betfair.py lines 89-96).
The method never assigns any field of `self`; it raises
`BetfairException("keepAlive:status", "FAIL")` when the body status is
`'FAIL'`, `BetfairException("keepAlive:error", error)` when the body error
field is non-empty, and `BetfairException("keepAlive", "Unknown error")` on a
non-200 HTTP status. -/
def Betfair.keep_alive (b : Betfair) (resp : KeepAliveResponse) :
    Betfair × Option BetfairException :=
  if resp.status_code = 200 then
    if resp.status = "FAIL" then
      (b, some ⟨"keepAlive:status", "FAIL"⟩)
    else if resp.error ≠ "" then
      (b, some ⟨"keepAlive:error", resp.error⟩)
    else
      (b, none)
  else
    (b, some ⟨"keepAlive", "Unknown error"⟩)

/-- Headers of the keep-alive request built by `keep_alive` (betfair.py line
86): `Accept`, `X-Application` from `self.app_key`, `X-Authentication` from
`self.session_token`. -/
structure KeepAliveHeaders where
  accept : String
  xApplication : String
  xAuthentication : String
deriving DecidableEq

/-- Request headers sent by `Betfair.keep_alive` (betfair.py line 86). -/
def Betfair.keep_alive_request_headers (b : Betfair) : KeepAliveHeaders :=
  ⟨"application/json", b.app_key, b.session_token⟩

/-- One run of the body of `Betfair.__keep_alive_thread` (betfair.py lines
74-79) against a finite schedule of responses, one per loop iteration:
`while True: self.keep_alive(); time.sleep(...)`.  The loop has no exception
handler, so an exception escaping `keep_alive` terminates the thread.  Returns
the final state, the number of probes issued, and the exception that escaped,
if any. -/
def Betfair.keep_alive_thread_run :
    Betfair → List KeepAliveResponse → Betfair × Nat × Option BetfairException
  | b, [] => (b, 0, none)
  | b, r :: rs =>
    match Betfair.keep_alive b r with
    | (b2, none) =>
      let t := Betfair.keep_alive_thread_run b2 rs
      (t.1, t.2.1 + 1, t.2.2)
    | (b2, some e) => (b2, 1, some e)

/-- Value of one character of the standard base64 alphabet, as used by
`base64.b64decode` in `login` (betfair.py line 51). -/
def b64Value (c : Char) : Option Nat :=
  if 'A' ≤ c ∧ c ≤ 'Z' then some (c.toNat - 'A'.toNat)
  else if 'a' ≤ c ∧ c ≤ 'z' then some (c.toNat - 'a'.toNat + 26)
  else if '0' ≤ c ∧ c ≤ '9' then some (c.toNat - '0'.toNat + 52)
  else if c = '+' then some 62
  else if c = '/' then some 63
  else none

/-- Decode base64 characters, in groups of four with trailing `=` padding,
into the byte values they encode; `none` on malformed input (mirroring the
error `base64.b64decode` raises). -/
def b64DecodeGroups : List Char → Option (List Nat)
  | [] => some []
  | [c1, c2, '=', '='] => do
    let v1 ← b64Value c1
    let v2 ← b64Value c2
    pure [v1 * 4 + v2 / 16]
  | [c1, c2, c3, '='] => do
    let v1 ← b64Value c1
    let v2 ← b64Value c2
    let v3 ← b64Value c3
    pure [v1 * 4 + v2 / 16, v2 % 16 * 16 + v3 / 4]
  | c1 :: c2 :: c3 :: c4 :: rest => do
    let v1 ← b64Value c1
    let v2 ← b64Value c2
    let v3 ← b64Value c3
    let v4 ← b64Value c4
    let tail ← b64DecodeGroups rest
    pure ([v1 * 4 + v2 / 16, v2 % 16 * 16 + v3 / 4, v3 % 4 * 64 + v4] ++ tail)
  | _ => none

/-- Interpret bytes as an ASCII string; `none` when a byte is outside ASCII
(mirroring the error `bytes.decode("ascii")` raises). -/
def bytesToAscii (bs : List Nat) : Option String :=
  if bs.all (fun v => decide (v < 128)) then some ⟨bs.map Char.ofNat⟩ else none

/-- Model of `base64.b64decode(s).decode("ascii")` as applied to the
credentials in `login` (betfair.py line 51). -/
def b64decode (s : String) : Option String := do
  let vals ← b64DecodeGroups s.toList
  bytesToAscii vals

/-- Headers of the login request (betfair.py line 52): the `X-Application`
header is the literal `'SomeKey'` in the source, and `Content-Type` is the
form encoding. -/
structure LoginHeaders where
  xApplication : String
  contentType : String
deriving DecidableEq

/-- Login HTTP request as built by `Betfair.login` (betfair.py lines 51-54):
a certificate-authenticated POST to the identity endpoint. -/
structure LoginRequest where
  method : String
  url : String
  body : String
  headers : LoginHeaders
  cert : String × String
deriving DecidableEq

/-- Request-building part of `Betfair.login` (betfair.py lines 51-54): the
body is `'username=%s&password=%s'` formatted with the base64-decoded
credentials, the headers are `{'X-Application': 'SomeKey', 'Content-Type':
'application/x-www-form-urlencoded'}` — note the source hardcodes `'SomeKey'`
and does not use `self.app_key` here — and the client certificate pair is
`('client-2048.crt', 'client-2048.key')`.  `none` when decoding a credential
raises. -/
def Betfair.login_request (b : Betfair) (username password : String) :
    Option LoginRequest :=
  match b64decode username, b64decode password with
  | some u, some p =>
    some ⟨"POST", "https://identitysso.betfair.com/api/certlogin",
      "username=" ++ u ++ "&password=" ++ p,
      ⟨"SomeKey", "application/x-www-form-urlencoded"⟩,
      ("client-2048.crt", "client-2048.key")⟩
  | _, _ => none

/-- Headers of a JSON-RPC request built by `Betfair.__call_aping`
(betfair.py line 40). -/
structure ApingHeaders where
  xApplication : String
  xAuthentication : String
  contentType : String
deriving DecidableEq

/-- JSON-RPC HTTP request as issued by `Betfair.__call_aping` (betfair.py
lines 39-43): `requests.post(url, data=jsonrpc_req, headers=headers)`. -/
structure ApingRequest where
  method : String
  url : String
  body : String
  headers : ApingHeaders
deriving DecidableEq

/-- Request-building part of `Betfair.__call_aping` (betfair.py lines 39-43):
a POST of the raw `jsonrpc_req` string with headers `X-Application` from
`self.app_key`, `X-Authentication` from `self.session_token`, and
`content-type: application/json`. -/
def Betfair.call_aping (b : Betfair) (jsonrpc_req : String) (url : String) :
    ApingRequest :=
  ⟨"POST", url, jsonrpc_req, ⟨b.app_key, b.session_token, "application/json"⟩⟩

/-- Class attribute `Betfair.betting_url` (betfair.py line 26). -/
def betting_url : String := "https://api.betfair.com/exchange/betting/json-rpc/v1"

/-- Class attribute `Betfair.accounts_url` (betfair.py line 27). -/
def accounts_url : String := "https://api.betfair.com/exchange/account/json-rpc/v1"

/-- Literal request string `account_req` of `get_gbp_funds` (betfair.py line
103). -/
def account_req : String :=
  "\x7b\"jsonrpc\": \"2.0\", \"method\": \"AccountAPING/v1.0/getAccountFunds\", \"params\": \x7b\"wallet\":\"UK\"\x7d, \"id\": 1\x7d"

/-- Literal request string `football_req` of `get_football_competitions`
(betfair.py line 112). -/
def football_req : String :=
  "\x7b\"jsonrpc\": \"2.0\", \"method\": \"SportsAPING/v1.0/listCompetitions\", \"params\": \x7b\"filter\":\x7b\"eventTypeIds\":[\"1\"]\x7d\x7d, \"id\": 1\x7d"

/-- Part of `market_data_req` before the `%s` substitution (betfair.py line
162). -/
def market_data_req_head : String :=
  "\x7b\"jsonrpc\": \"2.0\", \"method\": \"SportsAPING/v1.0/listMarketBook\", \"params\": \x7b\"marketIds\":["

/-- Part of `market_data_req` after the `%s` substitution (betfair.py line
162). -/
def market_data_req_tail : String :=
  "],\"priceProjection\":\x7b\"priceData\":[\"EX_BEST_OFFERS\"],\"virtualise\":\"true\"\x7d,\"orderProjection\":\"EXECUTABLE\",\"matchProjection\":\"ROLLED_UP_BY_AVG_PRICE\"\x7d, \"id\": 1\x7d"

/-- Request string `market_data_req` of `get_market_data` (betfair.py lines
162-163): the format string with `','.join(market_ids)` substituted for the
`%s`. -/
def market_data_req (market_ids : List String) : String :=
  market_data_req_head ++ String.intercalate "," market_ids ++ market_data_req_tail

/-- Request issued by `Betfair.get_gbp_funds` (betfair.py lines 98-105). -/
def Betfair.get_gbp_funds_request (b : Betfair) : ApingRequest :=
  Betfair.call_aping b account_req accounts_url

/-- Request issued by `Betfair.get_football_competitions` (betfair.py lines
107-115). -/
def Betfair.get_football_competitions_request (b : Betfair) : ApingRequest :=
  Betfair.call_aping b football_req betting_url

/-- Request issued by `Betfair.get_market_data` (betfair.py lines 154-166). -/
def Betfair.get_market_data_request (b : Betfair) (market_ids : List String) :
    ApingRequest :=
  Betfair.call_aping b (market_data_req market_ids) betting_url

/-- Whether the character list `pat` is an initial segment of `l`. -/
def leadsWith : List Char → List Char → Bool
  | [], _ => true
  | _ :: _, [] => false
  | a :: as, b :: bs => a == b && leadsWith as bs

/-- Whether the character list `pat` occurs contiguously inside `l`. -/
def hasSub (pat : List Char) : List Char → Bool
  | [] => leadsWith pat []
  | c :: rest => leadsWith pat (c :: rest) || hasSub pat rest

/-- Whether the string `pat` occurs contiguously inside `s`. -/
def strHasSub (s pat : String) : Bool := hasSub pat.toList s.toList

/-- The four quoted keys of a JSON-RPC 2.0 envelope all occur in `s`. -/
def carriesEnvelopeKeys (s : String) : Prop :=
  strHasSub s "\"jsonrpc\"" = true ∧ strHasSub s "\"method\"" = true
    ∧ strHasSub s "\"params\"" = true ∧ strHasSub s "\"id\"" = true

/-! Helper lemmas. -/

/-- The keep-alive operation returns its input state in every branch: the
source method contains no assignment to `self`. -/
theorem keep_alive_fst (b : Betfair) (resp : KeepAliveResponse) :
    (Betfair.keep_alive b resp).1 = b := by
  unfold Betfair.keep_alive
  by_cases h200 : resp.status_code = 200
  · rw [if_pos h200]
    by_cases hf : resp.status = "FAIL"
    · rw [if_pos hf]
    · rw [if_neg hf]
      by_cases he : resp.error ≠ ""
      · rw [if_pos he]
      · rw [if_neg he]
  · rw [if_neg h200]

/-- A full keep-alive thread run, successful or not, returns its input
state. -/
theorem keep_alive_thread_run_fst :
    ∀ (resps : List KeepAliveResponse) (b : Betfair),
      (Betfair.keep_alive_thread_run b resps).1 = b := by
  intro resps
  induction resps with
  | nil => intro b; rfl
  | cons r rs ih =>
    intro b
    have hf := keep_alive_fst b r
    cases hk : Betfair.keep_alive b r with
    | mk b2 eo =>
      rw [hk] at hf
      have hb2 : b2 = b := hf
      cases eo with
      | none =>
        simp only [Betfair.keep_alive_thread_run, hk]
        show (Betfair.keep_alive_thread_run b2 rs).1 = b
        rw [ih b2]
        exact hb2
      | some e =>
        simp only [Betfair.keep_alive_thread_run, hk]
        exact hb2

/-- A pattern that leads a list still leads it after appending on the
right. -/
theorem leadsWith_append (pat l r : List Char) (h : leadsWith pat l = true) :
    leadsWith pat (l ++ r) = true := by
  induction pat generalizing l with
  | nil => rfl
  | cons a as ih =>
    cases l with
    | nil => exact absurd h (by simp [leadsWith])
    | cons x xs =>
      simp only [leadsWith, Bool.and_eq_true] at h
      simp only [List.cons_append, leadsWith, Bool.and_eq_true]
      exact ⟨h.1, ih xs h.2⟩

/-- A substring of `l` is a substring of `l ++ r`. -/
theorem hasSub_append_left (pat l r : List Char) (h : hasSub pat l = true) :
    hasSub pat (l ++ r) = true := by
  induction l with
  | nil =>
    cases pat with
    | nil =>
      cases r with
      | nil => rfl
      | cons c cs => simp [hasSub, leadsWith]
    | cons a as => exact absurd h (by simp [hasSub, leadsWith])
  | cons c cs ih =>
    simp only [hasSub, Bool.or_eq_true] at h
    simp only [List.cons_append, hasSub, Bool.or_eq_true]
    cases h with
    | inl h1 => exact Or.inl (leadsWith_append pat (c :: cs) r h1)
    | inr h2 => exact Or.inr (ih h2)

/-- A substring of `r` is a substring of `l ++ r`. -/
theorem hasSub_append_right (pat l r : List Char) (h : hasSub pat r = true) :
    hasSub pat (l ++ r) = true := by
  induction l with
  | nil => exact h
  | cons c cs ih =>
    simp only [List.cons_append, hasSub, Bool.or_eq_true]
    exact Or.inr ih

/-- Appending strings concatenates their character lists. -/
theorem strToList_append (s t : String) : (s ++ t).toList = s.toList ++ t.toList := by
  cases s
  cases t
  rfl

/-- A substring of `s` is a substring of `s ++ t`. -/
theorem strHasSub_append_left (s t pat : String) (h : strHasSub s pat = true) :
    strHasSub (s ++ t) pat = true := by
  unfold strHasSub at h ⊢
  rw [strToList_append]
  exact hasSub_append_left pat.toList s.toList t.toList h

/-- A substring of `t` is a substring of `s ++ t`. -/
theorem strHasSub_append_right (s t pat : String) (h : strHasSub t pat = true) :
    strHasSub (s ++ t) pat = true := by
  unfold strHasSub at h ⊢
  rw [strToList_append]
  exact hasSub_append_right pat.toList s.toList t.toList h

/-! Claim theorems. -/

/-- C1: for every login call where the identity endpoint answers HTTP 200 with
a success (non-INVALID_USERNAME_OR_PASSWORD) loginStatus, the manager
transitions from the unauthenticated initial state to an authenticated state
storing exactly the sessionToken and loginStatus of the response body, raising
nothing and starting the keep-alive thread. -/
theorem login_success_sets_token_and_status (app_key : String) (refresh : Nat)
    (resp : LoginResponse) (h200 : resp.status_code = 200)
    (hok : resp.loginStatus ≠ "INVALID_USERNAME_OR_PASSWORD") :
    Betfair.login (Betfair.init app_key refresh) resp
      = ({ Betfair.init app_key refresh with
            login_status := resp.loginStatus
            session_token := resp.sessionToken
            keep_alive_threads_started := 1 },
          none) := by
  unfold Betfair.login
  rw [if_pos h200, if_neg hok]
  rfl

/-- C1 witness: the concrete scenario of the spec, a 200 response with body
loginStatus SUCCESS and sessionToken abc123 leaves login_status SUCCESS and
session_token abc123. -/
theorem login_success_sets_token_and_status_witness :
    Betfair.login (Betfair.init "appKey" 7200) ⟨200, "SUCCESS", "abc123"⟩
      = ({ Betfair.init "appKey" 7200 with
            login_status := "SUCCESS"
            session_token := "abc123"
            keep_alive_threads_started := 1 },
          none) :=
  login_success_sets_token_and_status "appKey" 7200 ⟨200, "SUCCESS", "abc123"⟩
    rfl (by decide)

/-- C2: for every login call where the identity endpoint answers HTTP 200 with
loginStatus INVALID_USERNAME_OR_PASSWORD, login raises a BetfairException and
the state is returned unchanged: session_token and login_status keep their
prior values and no keep-alive thread is started. -/
theorem login_invalid_credentials_preserves_state (b : Betfair)
    (resp : LoginResponse) (h200 : resp.status_code = 200)
    (hbad : resp.loginStatus = "INVALID_USERNAME_OR_PASSWORD") :
    Betfair.login b resp
      = (b, some ⟨"login:loginStatus", "INVALID_USERNAME_OR_PASSWORD"⟩) := by
  unfold Betfair.login
  rw [if_pos h200, if_pos hbad]

/-- C2 witness: the concrete scenario at a fresh manager. -/
theorem login_invalid_credentials_preserves_state_witness :
    Betfair.login (Betfair.init "appKey" 7200)
        ⟨200, "INVALID_USERNAME_OR_PASSWORD", ""⟩
      = (Betfair.init "appKey" 7200,
          some ⟨"login:loginStatus", "INVALID_USERNAME_OR_PASSWORD"⟩) :=
  login_invalid_credentials_preserves_state (Betfair.init "appKey" 7200)
    ⟨200, "INVALID_USERNAME_OR_PASSWORD", ""⟩ rfl rfl

/-- C3 counterexample: on a non-200 response the raised exception carries the
reason string "Unknown error", not "unknown", so the claim's quoted reason is
wrong at the concrete input status 500. -/
theorem login_non200_reason_is_not_unknown :
    (Betfair.login (Betfair.init "appKey" 7200) ⟨500, "", ""⟩).2
        = some ⟨"login", "Unknown error"⟩
    ∧ ¬ (Betfair.login (Betfair.init "appKey" 7200) ⟨500, "", ""⟩).2
        = some ⟨"login", "unknown"⟩ := by
  decide

/-- C3 (amended): for every login call where the identity endpoint answers any
HTTP status other than 200, login raises BetfairException("login", "Unknown
error") and the state is returned unchanged, session_token and login_status
included. -/
theorem login_non200_raises_unknown_error (b : Betfair) (resp : LoginResponse)
    (h : resp.status_code ≠ 200) :
    Betfair.login b resp = (b, some ⟨"login", "Unknown error"⟩) := by
  unfold Betfair.login
  rw [if_neg h]

/-- C3 witness: a concrete 404 response at a fresh manager. -/
theorem login_non200_raises_unknown_error_witness :
    Betfair.login (Betfair.init "appKey" 7200) ⟨404, "", ""⟩
      = (Betfair.init "appKey" 7200, some ⟨"login", "Unknown error"⟩) :=
  login_non200_raises_unknown_error (Betfair.init "appKey" 7200)
    ⟨404, "", ""⟩ (by decide)

/-- C10: a freshly constructed manager has empty login_status and
session_token and no keep-alive thread started, and the keep-alive request and
any JSON-RPC request built before a login are still built — nothing fails
locally — carrying the empty string as the X-Authentication header. -/
theorem init_state_and_preauth_requests (app_key : String) (refresh : Nat)
    (jsonrpc_req url : String) :
    (Betfair.init app_key refresh).login_status = ""
    ∧ (Betfair.init app_key refresh).session_token = ""
    ∧ (Betfair.init app_key refresh).keep_alive_threads_started = 0
    ∧ (Betfair.keep_alive_request_headers
        (Betfair.init app_key refresh)).xAuthentication = ""
    ∧ (Betfair.call_aping (Betfair.init app_key refresh)
        jsonrpc_req url).headers.xAuthentication = "" :=
  ⟨rfl, rfl, rfl, rfl, rfl⟩

/-- C4 counterexample: on a non-200 response the keep-alive exception carries
the reason string "Unknown error", not "unknown", so the claim's quoted reason
is wrong at the concrete input status 503. -/
theorem keep_alive_non200_reason_is_not_unknown :
    (Betfair.keep_alive (Betfair.init "appKey" 7200) ⟨503, "", ""⟩).2
        = some ⟨"keepAlive", "Unknown error"⟩
    ∧ ¬ (Betfair.keep_alive (Betfair.init "appKey" 7200) ⟨503, "", ""⟩).2
        = some ⟨"keepAlive", "unknown"⟩ := by
  decide

/-- C4 (amended): keep_alive raises exactly when the endpoint answers HTTP 200
with body status FAIL or a non-empty error field, or answers a non-200 status,
the latter raising BetfairException("keepAlive", "Unknown error"); it returns
normally on a 200 response whose status is not FAIL and whose error field is
empty. -/
theorem keep_alive_failure_condition (b : Betfair) (resp : KeepAliveResponse) :
    ((Betfair.keep_alive b resp).2 ≠ none
      ↔ (resp.status_code = 200 ∧ (resp.status = "FAIL" ∨ resp.error ≠ ""))
        ∨ resp.status_code ≠ 200)
    ∧ (resp.status_code ≠ 200
      → Betfair.keep_alive b resp = (b, some ⟨"keepAlive", "Unknown error"⟩)) := by
  by_cases h200 : resp.status_code = 200
  · by_cases hfail : resp.status = "FAIL"
    · simp [Betfair.keep_alive, h200, hfail]
    · by_cases herr : resp.error = ""
      · simp [Betfair.keep_alive, h200, hfail, herr]
      · simp [Betfair.keep_alive, h200, hfail, herr]
  · simp [Betfair.keep_alive, h200]

/-- C5: a keep-alive thread run of any length against any schedule of
responses never changes session_token or login_status: the probe only reads
the state to build its headers. -/
theorem keep_alive_run_preserves_session_state (b : Betfair)
    (resps : List KeepAliveResponse) :
    (Betfair.keep_alive_thread_run b resps).1.session_token = b.session_token
    ∧ (Betfair.keep_alive_thread_run b resps).1.login_status = b.login_status := by
  rw [keep_alive_thread_run_fst resps b]
  exact ⟨rfl, rfl⟩

/-- C6 counterexample: with a schedule of a failing probe followed by a
successful one, the thread run issues exactly one probe and the exception
escapes the loop: the further probe the claim promises is never issued. -/
theorem keep_alive_loop_dies_on_failing_probe :
    Betfair.keep_alive_thread_run (Betfair.init "appKey" 7200)
        [⟨200, "FAIL", ""⟩, ⟨200, "SUCCESS", ""⟩]
      = (Betfair.init "appKey" 7200, 1, some ⟨"keepAlive:status", "FAIL"⟩)
    ∧ (1 : Nat) ≠ 2 := by
  decide

/-- C6 (amended): when one keep-alive probe fails, the exception propagates
out of the unguarded loop body and terminates the background thread: after any
prefix of successful probes, a failing probe is the last probe issued, no
matter how many responses were still scheduled. -/
theorem keep_alive_thread_stops_at_first_failure (b : Betfair)
    (pre : List KeepAliveResponse) (r : KeepAliveResponse)
    (post : List KeepAliveResponse) (e : BetfairException)
    (hpre : ∀ p ∈ pre, (Betfair.keep_alive b p).2 = none)
    (hr : (Betfair.keep_alive b r).2 = some e) :
    Betfair.keep_alive_thread_run b (pre ++ r :: post)
      = (b, pre.length + 1, some e) := by
  have hrpair : Betfair.keep_alive b r = (b, some e) := by
    have hf := keep_alive_fst b r
    cases hk : Betfair.keep_alive b r with
    | mk b2 eo =>
      rw [hk] at hf hr
      have hb2 : b2 = b := hf
      have heo : eo = some e := hr
      rw [hb2, heo]
  revert hpre
  induction pre with
  | nil =>
    intro _
    simp only [List.nil_append, Betfair.keep_alive_thread_run, hrpair]
    rfl
  | cons p pre2 ih =>
    intro hpre
    have hppair : Betfair.keep_alive b p = (b, none) := by
      have hf := keep_alive_fst b p
      have hp := hpre p (List.mem_cons_self p pre2)
      cases hk : Betfair.keep_alive b p with
      | mk b2 eo =>
        rw [hk] at hf hp
        have hb2 : b2 = b := hf
        have heo : eo = none := hp
        rw [hb2, heo]
    have ih2 := ih (fun q hq => hpre q (List.mem_cons_of_mem p hq))
    simp only [List.cons_append, Betfair.keep_alive_thread_run, hppair]
    show ((Betfair.keep_alive_thread_run b (pre2 ++ r :: post)).1,
          (Betfair.keep_alive_thread_run b (pre2 ++ r :: post)).2.1 + 1,
          (Betfair.keep_alive_thread_run b (pre2 ++ r :: post)).2.2)
        = (b, (p :: pre2).length + 1, some e)
    rw [ih2]
    rfl

/-- C6 witness: one successful probe, then a failing one, then one more
scheduled response: the run stops after the second probe with the FAIL
exception. -/
theorem keep_alive_thread_stops_at_first_failure_witness :
    Betfair.keep_alive_thread_run (Betfair.init "appKey" 7200)
        [⟨200, "SUCCESS", ""⟩, ⟨200, "FAIL", ""⟩, ⟨200, "SUCCESS", ""⟩]
      = (Betfair.init "appKey" 7200, 2, some ⟨"keepAlive:status", "FAIL"⟩) :=
  keep_alive_thread_stops_at_first_failure (Betfair.init "appKey" 7200)
    [⟨200, "SUCCESS", ""⟩] ⟨200, "FAIL", ""⟩ [⟨200, "SUCCESS", ""⟩]
    ⟨"keepAlive:status", "FAIL"⟩ (by decide) (by decide)

/-- C7: evaluating the code at the failing input of the claim: two successive
successful logins on the same manager start two keep-alive threads — the
second login starts a fresh daemon thread without stopping the first — not the
single active loop the claim requires. -/
theorem double_login_starts_two_keep_alive_threads :
    (Betfair.login
        (Betfair.login (Betfair.init "appKey" 7200) ⟨200, "SUCCESS", "token1"⟩).1
        ⟨200, "SUCCESS", "token2"⟩).1.keep_alive_threads_started = 2
    ∧ (2 : Nat) ≠ 1 := by
  decide

/-- C8 counterexample: for a manager configured with app_key "myAppKey", the
login request's X-Application header is the hardcoded literal "SomeKey", not
the configured application key, so the claim's header clause is wrong at this
concrete input. -/
theorem login_request_ignores_configured_app_key :
    (Betfair.login_request (Betfair.init "myAppKey" 7200)
        "dXNlcg==" "cGFzcw==").map (fun r => r.headers.xApplication)
      = some "SomeKey"
    ∧ ("SomeKey" : String) ≠ (Betfair.init "myAppKey" 7200).app_key := by
  decide

/-- C8 (amended): for every login call the request to the identity endpoint is
a POST whose form-encoded body is username=u&password=p with u and p the
base64-decoded username and password arguments, and whose X-Application header
is the fixed literal "SomeKey", regardless of the configured application
key. -/
theorem login_request_body_and_fixed_header (b : Betfair)
    (username password u p : String)
    (hu : b64decode username = some u) (hp : b64decode password = some p) :
    Betfair.login_request b username password
      = some ⟨"POST", "https://identitysso.betfair.com/api/certlogin",
          "username=" ++ u ++ "&password=" ++ p,
          ⟨"SomeKey", "application/x-www-form-urlencoded"⟩,
          ("client-2048.crt", "client-2048.key")⟩ := by
  unfold Betfair.login_request
  rw [hu, hp]

/-- C8 witness: credentials that decode to user and pass give the body
username=user&password=pass. -/
theorem login_request_body_and_fixed_header_witness :
    Betfair.login_request (Betfair.init "myAppKey" 7200) "dXNlcg==" "cGFzcw=="
      = some ⟨"POST", "https://identitysso.betfair.com/api/certlogin",
          "username=user&password=pass",
          ⟨"SomeKey", "application/x-www-form-urlencoded"⟩,
          ("client-2048.crt", "client-2048.key")⟩ :=
  login_request_body_and_fixed_header (Betfair.init "myAppKey" 7200)
    "dXNlcg==" "cGFzcw==" "user" "pass" (by decide) (by decide)

/-- C9: every modelled betting/account JSON-RPC call — get_gbp_funds,
get_football_competitions, get_market_data — sends a POST whose headers carry
X-Application set to the manager's application key, X-Authentication set to
the current session token, and content-type application/json, and whose body
carries the quoted jsonrpc, method, params and id keys of a JSON-RPC 2.0
envelope, for every manager state and every market id list. -/
theorem aping_requests_use_auth_headers_and_envelope (b : Betfair)
    (market_ids : List String) :
    (Betfair.get_gbp_funds_request b).method = "POST"
    ∧ (Betfair.get_gbp_funds_request b).headers
        = ⟨b.app_key, b.session_token, "application/json"⟩
    ∧ carriesEnvelopeKeys (Betfair.get_gbp_funds_request b).body
    ∧ (Betfair.get_football_competitions_request b).method = "POST"
    ∧ (Betfair.get_football_competitions_request b).headers
        = ⟨b.app_key, b.session_token, "application/json"⟩
    ∧ carriesEnvelopeKeys (Betfair.get_football_competitions_request b).body
    ∧ (Betfair.get_market_data_request b market_ids).method = "POST"
    ∧ (Betfair.get_market_data_request b market_ids).headers
        = ⟨b.app_key, b.session_token, "application/json"⟩
    ∧ carriesEnvelopeKeys (Betfair.get_market_data_request b market_ids).body := by
  refine ⟨rfl, rfl, ?_, rfl, rfl, ?_, rfl, rfl, ?_, ?_, ?_, ?_⟩
  · show carriesEnvelopeKeys account_req
    exact ⟨by decide, by decide, by decide, by decide⟩
  · show carriesEnvelopeKeys football_req
    exact ⟨by decide, by decide, by decide, by decide⟩
  · show strHasSub (market_data_req market_ids) "\"jsonrpc\"" = true
    unfold market_data_req
    exact strHasSub_append_left _ _ _
      (strHasSub_append_left _ _ _ (by decide))
  · show strHasSub (market_data_req market_ids) "\"method\"" = true
    unfold market_data_req
    exact strHasSub_append_left _ _ _
      (strHasSub_append_left _ _ _ (by decide))
  · show strHasSub (market_data_req market_ids) "\"params\"" = true
    unfold market_data_req
    exact strHasSub_append_left _ _ _
      (strHasSub_append_left _ _ _ (by decide))
  · show strHasSub (market_data_req market_ids) "\"id\"" = true
    unfold market_data_req
    exact strHasSub_append_right _ _ _ (by decide)
